import Mathlib

/-!
# Verification of the Sphere_Base surface-edge and camera core

A shallow embedding of `src/sphere_base/edge/surface_edge.py` (class `SurfaceEdge`)
and `src/sphere_base/sphere_universe_base/suv_cam.py` (class `Camera`), together
with theorems settling the spec claims about them.

Numeric values are modelled with `ℚ`.  Every interpolated point of an edge lies on
the single great circle through the two endpoint sockets, so orientations
(`pos_orientation_offset`) are represented by their arc parameter (the angle from a
fixed reference point of that circle), and 3-D positions by the injective
arc-length chart along the circle.  Python exceptions are modelled with
`Option`/`Except`.
-/

namespace SphereBase

/-- A 3-D position, as the repository stores points (`[pos[0], pos[1], pos[2]]`). -/
abbrev V3 : Type := ℚ × ℚ × ℚ

/-- An RGBA color, as stored in `SurfaceEdge.color`. -/
abbrev Color : Type := ℚ × ℚ × ℚ × ℚ

/-- Modelled from the spec (§4.1 GeometryMath; the implementation used by the code is
`quaternion.slerp` from the external `pyrr` library): spherical linear interpolation,
the shortest-arc blend with `t = 0 ↦ q_start` and `t = 1 ↦ q_end`.  Orientations of
points on the single great circle through the two sockets are represented by their
arc parameter, in which shortest-arc interpolation is linear. -/
def slerp (qStart qEnd t : ℚ) : ℚ :=
  qStart + t * (qEnd - qStart)

/-- The fields of the external `Socket` collaborator that the edge code reads
(spec §3, §6): the orientation offset `pos_orientation_offset` relative to the sphere
center (represented by its arc parameter) and the owning node's visual disc radius
(`socket.node.gr_node.node_disc_radius`). -/
structure Socket where
  angle : ℚ
  node_disc_radius : ℚ
deriving DecidableEq, Repr

/-- Modelled from the spec (§4.2 step 5; the implementation is
`GraphicEdge.get_position`, which is not under `src/`): project an orientation to its
3-D position on the sphere of the given radius.  On the shared great circle the
position is determined by the arc-length coordinate `radius * angle`; the model
places this injective chart in the first coordinate, so equality, distinctness and
betweenness of modelled positions coincide with those of the real 3-D positions on
the arc. -/
def get_position (radius angle : ℚ) : V3 :=
  (radius * angle, 0, 0)

/-- A socket's 3-D position `socket.xyz` on the sphere of the given radius (spec §3:
the position and the orientation offset describe the same point of the sphere). -/
def Socket.xyz (s : Socket) (radius : ℚ) : V3 :=
  get_position radius s.angle

/-- Modelled from the spec (§4.1; the implementation is `UvCalc.get_distance_on_sphere`,
which is not under `src/`): great-circle arc length between two sockets on a sphere of
the given radius, i.e. the radius times the angle between their position vectors from
the sphere's center. -/
def get_distance_on_sphere (sockA sockB : Socket) (radius : ℚ) : ℚ :=
  radius * |sockA.angle - sockB.angle|

/-- Modelled from the spec (§4.2 step 2; the implementation is
`GraphicEdge.get_number_of_points`, which is not under `src/`): the number of
interpolation points is computed from the arc distance between the endpoint
positions and the configured target point density `unit_length` (a positive
configuration constant), with larger separation yielding proportionally more
points; zero separation yields `n = 0`, which callers treat as nothing to draw.
In the arc-length chart the arc distance between the endpoint positions is the
difference of their first coordinates. -/
def get_number_of_points (startXyz endXyz : V3) (radius unit_length : ℚ) : ℕ :=
  ⌈|startXyz.1 - endXyz.1| / unit_length⌉₊

/-- The mutable state of a `SurfaceEdge`
(src/sphere_base/edge/surface_edge.py) touched by the geometry and drawing
pipeline: the two endpoint sockets, the radius copied from the sphere, the
configured `gr_edge.unit_length`, the computed polyline `pos_array`, the flattened
`vertices` and `buffer` arrays, the edge's own `xyz`, the collision handle
`collision_object_id`, and the color.  `next_collision_id` models the external
`mouse_ray.create_collision_object` collaborator handing out collision handles. -/
structure EdgeGeom where
  start_socket : Option Socket
  end_socket : Option Socket
  radius : ℚ
  unit_length : ℚ
  pos_array : List V3
  vertices : List ℚ
  buffer : List ℚ
  xyz : V3
  collision_object_id : Option ℤ
  next_collision_id : ℤ
  color : Option Color
deriving DecidableEq, Repr

/-- `SurfaceEdge.get_edge_start_end` (surface_edge.py lines 306–317): reads the start
node's disc radius, computes the arc length `ln` between the sockets, the clearance
fraction `t = r / ln`, and returns the SLERP-adjusted start orientation together with
the end orientation.  The division is unguarded: a zero arc length raises
`ZeroDivisionError`, and a missing socket raises `AttributeError`; both are modelled
as `none`. -/
def get_edge_start_end (e : EdgeGeom) : Option (ℚ × ℚ) :=
  match e.start_socket, e.end_socket with
  | some ss, some es =>
    let r := ss.node_disc_radius
    let ln := get_distance_on_sphere es ss e.radius
    if ln = 0 then none
    else
      let t := r / ln
      let s_angle := ss.angle
      let endAngle := es.angle
      some (slerp s_angle endAngle t, endAngle)
  | _, _ => none

/-- `SurfaceEdge.update_buffers` (surface_edge.py lines 283–292): flattens the point
list into one flat numeric array, three components per point, no padding. -/
def update_buffers (pos_array : List V3) : List ℚ :=
  pos_array.flatMap (fun p => [p.1, p.2.1, p.2.2])

/-- `SurfaceEdge.update_line_points_position` (surface_edge.py lines 258–281): builds
`pos_array` from SLERP at parameters `step * i` for `i = 0, …, number_of_vertices - 1`
(the Python loop is `for i in range(number_of_vertices)`), registers a fresh collision
object for mouse picking, records the edge's `xyz` from the start socket, and
refreshes the flattened vertex buffers. -/
def update_line_points_position (e : EdgeGeom) (number_of_vertices : ℕ) (step : ℚ) :
    Option EdgeGeom :=
  match get_edge_start_end e, e.start_socket with
  | some se, some ss =>
    let pos_array := (List.range number_of_vertices).map
      (fun i => get_position e.radius (slerp se.1 se.2 (step * (i : ℚ))))
    some { e with
      pos_array := pos_array
      collision_object_id := some e.next_collision_id
      next_collision_id := e.next_collision_id + 1
      xyz := Socket.xyz ss e.radius
      vertices := update_buffers pos_array
      buffer := update_buffers pos_array }
  | _, _ => none

/-- `SurfaceEdge.update_position` (surface_edge.py lines 243–256): a silent no-op
unless both endpoint sockets are set (Python object truthiness: a socket object is
truthy exactly when it is not `None`); otherwise computes the point count `n`, the
step `1 / n` (guarded to `1` when `n ≤ 1`), recomputes the line points when `n > 0`,
and reloads the mesh.  `load_mesh_into_opengl` only uploads the already-computed
buffers to OpenGL and swallows its own exceptions, so it does not change the
modelled state. -/
def update_position (e : EdgeGeom) : Option EdgeGeom :=
  match e.start_socket, e.end_socket with
  | some ss, some es =>
    let n := get_number_of_points (Socket.xyz ss e.radius) (Socket.xyz es e.radius)
      e.radius e.unit_length
    let step : ℚ := if 1 < n then 1 / (n : ℚ) else 1
    if 0 < n then update_line_points_position e n step else some e
  | _, _ => some e

/-- A draw call issued by `SurfaceEdge.draw`: either a fat-line pass through the
shader abstraction (`shader.draw_edge(points, width, color, dotted)`) or a raw
OpenGL array draw (`glDrawArrays(GL_LINES, first, count)`). -/
inductive DrawEvent where
  | draw_edge (points : List V3) (width : ℚ) (color : Color) (dotted : Bool)
  | drawArrays (first : ℕ) (count : ℕ)
deriving DecidableEq, Repr

/-- The defensive color normalization at the top of `SurfaceEdge.draw`
(surface_edge.py line 367): a falsy color (`None`) is replaced by the default
`[0.0, 0.0, 0.0, 0.5]`. -/
def normalizeColor (c : Option Color) : Color :=
  match c with
  | none => (0, 0, 0, 1 / 2)
  | some c => c

/-- `SurfaceEdge.draw` (surface_edge.py lines 362–397): normalizes the color, then
unconditionally issues the two fat-line shader passes (`self.shader.draw_edge` with
width 1.5 and `self.model.shader.draw_edge` with width 4, both with the point
sequence, the color and `dotted=False`); only afterwards, inside the try block, it
returns early when `len(self.vertices) == 0`, and otherwise issues
`glDrawArrays(GL_LINES, 0, 2)`.  Returns the updated edge state and the list of
draw calls issued, in order. -/
def draw (e : EdgeGeom) : EdgeGeom × List DrawEvent :=
  let color := normalizeColor e.color
  let fatPasses : List DrawEvent :=
    [DrawEvent.draw_edge e.pos_array (3 / 2) color false,
     DrawEvent.draw_edge e.pos_array 4 color false]
  let e1 : EdgeGeom := { e with color := some color }
  if e1.vertices.length = 0 then (e1, fatPasses)
  else (e1, fatPasses ++ [DrawEvent.drawArrays 0 2])

/-- `SurfaceEdge.is_dragging` (surface_edge.py lines 319–329), acting on the
`_edge_moved` flag and the sphere's undo history (`sphere.history.store_history`,
modelled from the spec as appending the label to the undo log).  Returns the new
`_edge_moved` flag, the value returned to the caller, and the updated history. -/
def is_dragging (edge_moved : Bool) (history : List String) (value : Bool) :
    Bool × Bool × List String :=
  if edge_moved = value then (edge_moved, value, history)
  else if edge_moved && !value then (false, false, history ++ ["edge moved"])
  else if !edge_moved && value then (true, true, history)
  else (edge_moved, edge_moved, history)

/-- The identity and endpoint bookkeeping fields of a `SurfaceEdge` used by the
socket back-reference and removal logic: the edge's id, the ids of the two endpoint
sockets (if set), and the collision handle. -/
structure EdgeRef where
  id : ℕ
  start_socket : Option ℕ
  end_socket : Option ℕ
  collision_object_id : Option ℤ
deriving DecidableEq, Repr

/-- The shared state mutated by the edge bookkeeping: each socket's back-reference
list of attached edges (spec §6: `Socket.add_edge` / `Socket.remove_edge`), the
sphere's item collection (spec §6: `Sphere.add_item` / `Sphere.remove_item`), and
the set of edges with a live collision object registered with the mouse ray (spec
§6: `create_collision_object` / `delete_collision_object`).  These collaborator
operations are modelled from the spec; their implementations are not under `src/`. -/
structure World where
  socket_edges : ℕ → List ℕ
  items : List ℕ
  collision : List ℕ

/-- Modelled from the spec (§6): `Socket.add_edge` appends the edge to the socket's
back-reference list. -/
def add_edge (w : World) (s e : ℕ) : World :=
  { w with socket_edges := fun sid =>
      if sid = s then w.socket_edges sid ++ [e] else w.socket_edges sid }

/-- Modelled from the spec (§6): `Socket.remove_edge` removes the edge from the
socket's back-reference list. -/
def remove_edge (w : World) (s e : ℕ) : World :=
  { w with socket_edges := fun sid =>
      if sid = s then (w.socket_edges sid).filter (fun x => x != e)
      else w.socket_edges sid }

/-- The `start_socket` property setter (surface_edge.py lines 204–216): if a start
socket is already connected, detach the edge from it; assign the new start socket;
then attach the edge to the new socket when it is not `None`. -/
def set_start_socket (w : World) (e : EdgeRef) (newSocket : Option ℕ) :
    World × EdgeRef :=
  let w1 := match e.start_socket with
    | some old => remove_edge w old e.id
    | none => w
  let e1 : EdgeRef := { e with start_socket := newSocket }
  let w2 := match newSocket with
    | some s => add_edge w1 s e1.id
    | none => w1
  (w2, e1)

/-- The `end_socket` property setter (surface_edge.py lines 229–241): same
detach-then-attach protocol as the start setter. -/
def set_end_socket (w : World) (e : EdgeRef) (newSocket : Option ℕ) :
    World × EdgeRef :=
  let w1 := match e.end_socket with
    | some old => remove_edge w old e.id
    | none => w
  let e1 : EdgeRef := { e with end_socket := newSocket }
  let w2 := match newSocket with
    | some s => add_edge w1 s e1.id
    | none => w1
  (w2, e1)

/-- Python truthiness of the collision handle, as tested by
`if self.collision_object_id:` — `None` and `0` are falsy, any other integer is
truthy. -/
def pyTruthy (o : Option ℤ) : Bool :=
  match o with
  | none => false
  | some v => v != 0

/-- `SurfaceEdge.remove` (surface_edge.py lines 349–360): detaches the edge from both
sockets, removes it from the sphere's item collection, and deletes the collision
object only when `collision_object_id` is truthy.  Calling `remove_edge` on a missing
(`None`) socket raises `AttributeError`; the model returns `Except.error` carrying
the state reached at the moment the exception is raised. -/
def remove (w : World) (e : EdgeRef) : Except World World :=
  match e.start_socket with
  | none => Except.error w
  | some ss =>
    let w1 := remove_edge w ss e.id
    match e.end_socket with
    | none => Except.error w1
    | some es =>
      let w2 := remove_edge w1 es e.id
      let w3 : World := { w2 with items := w2.items.filter (fun x => x != e.id) }
      let w4 : World :=
        if pyTruthy e.collision_object_id then
          { w3 with collision := w3.collision.filter (fun x => x != e.id) }
        else w3
      Except.ok w4

/-- The camera state (src/sphere_base/sphere_universe_base/suv_cam.py): position
`xyz`, `target`, the two parallel FIFO queues `movement_stack` / `target_stack` of
pending discrete moves, and the published view slot (`config.set_view_loc`).  The
published matrix is `pyrr.matrix44.create_look_at(xyz, target, camera_up)` where
`camera_up` is recomputed by `_set_view` as a fixed function of `xyz` and `target`;
since `create_look_at` is an external library function, the model records the
determining pair `(xyz, target)` as the published view. -/
structure CamState where
  xyz : V3
  target : V3
  movement_stack : List V3
  target_stack : List V3
  view_loc : Option (V3 × V3)
deriving DecidableEq, Repr

/-- `Camera.get_view_matrix` (suv_cam.py lines 113–122): recompute the view from the
current position and target and publish it to the shared view slot; returns the
updated state and the published view. -/
def get_view_matrix (c : CamState) : CamState × (V3 × V3) :=
  ({ c with view_loc := some (c.xyz, c.target) }, (c.xyz, c.target))

/-- `Camera.draw` (suv_cam.py lines 179–195): when the movement queue is non-empty,
read and apply the first queued position and target and delete them from the queues
(indexing `target_stack[0]` while it is empty but `movement_stack` is not would
raise `IndexError`, modelled as `none`); then recompute and publish the view
matrix. -/
def Camera.draw (c : CamState) : Option CamState :=
  match c.movement_stack, c.target_stack with
  | [], _ => some (get_view_matrix c).1
  | p :: ms, t :: ts =>
    some (get_view_matrix
      { c with xyz := p, target := t, movement_stack := ms, target_stack := ts }).1
  | _ :: _, [] => none

/-! ## Derived predicates -/

/-- The angle `x` lies strictly between `a` and `b` (in either order): the spec's
"lies strictly between the start socket's orientation and the end socket's
orientation". -/
def strictlyBetween (a x b : ℚ) : Prop :=
  (a < x ∧ x < b) ∨ (b < x ∧ x < a)

/-- After `SurfaceEdge.remove` completes without an exception, neither endpoint socket
holds a back-reference to the edge, the edge is gone from the sphere's item
collection, and no collision handle for it remains registered. -/
def removedCleanly (w : World) (e : EdgeRef) (ss es : ℕ) : Prop :=
  match remove w e with
  | Except.ok w2 =>
      e.id ∉ w2.socket_edges ss ∧ e.id ∉ w2.socket_edges es ∧
      e.id ∉ w2.items ∧ e.id ∉ w2.collision
  | Except.error _ => False

/-- `SurfaceEdge.remove` completes without an exception, yet the edge's collision
handle is still registered afterwards (a dangling handle). -/
def danglingAfterRemove (w : World) (e : EdgeRef) : Prop :=
  match remove w e with
  | Except.ok w2 => e.id ∈ w2.collision
  | Except.error _ => False

/-- `SurfaceEdge.remove` raises an exception, and at that moment the edge has not
been removed from the sphere's item collection. -/
def raisedBeforeItemRemoval (w : World) (e : EdgeRef) : Prop :=
  match remove w e with
  | Except.error w2 => w2.items = w.items
  | Except.ok _ => False

/-! ## Concrete instances used by witnesses and counterexamples -/

/-- The start socket of the spec's end-to-end scenario: arc parameter 0,
`node_disc_radius = 0.05`. -/
def c1Start : Socket := { angle := 0, node_disc_radius := 1 / 20 }

/-- The end socket of the spec's end-to-end scenario: an antipodal-ish point at arc
parameter 3 (about 172°). -/
def c1End : Socket := { angle := 3, node_disc_radius := 1 / 20 }

/-- The spec's end-to-end scenario: sphere radius 1, sockets at arc parameters 0 and
3, `unit_length = 3/4` so that the computed point count is `n = ⌈3 / (3/4)⌉ = 4`. -/
def c1Edge : EdgeGeom :=
  { start_socket := some c1Start, end_socket := some c1End, radius := 1,
    unit_length := 3 / 4, pos_array := [], vertices := [], buffer := [],
    xyz := (0, 0, 0), collision_object_id := none, next_collision_id := 0,
    color := none }

/-- A socket pair with clearance smaller than the arc length: disc radius 1/2
against arc length 2. -/
def c3Start : Socket := { angle := 0, node_disc_radius := 1 / 2 }

/-- End socket at arc parameter 2 for the clearance scenario. -/
def c3End : Socket := { angle := 2, node_disc_radius := 0 }

/-- An edge whose start disc radius (1/2) is below the arc length (2). -/
def c3Edge : EdgeGeom :=
  { start_socket := some c3Start, end_socket := some c3End, radius := 1,
    unit_length := 1, pos_array := [], vertices := [], buffer := [],
    xyz := (0, 0, 0), collision_object_id := none, next_collision_id := 0,
    color := none }

/-- A start socket whose disc radius (2) exceeds the arc length to the end socket
(1), so the unclamped clearance fraction is `t = 2 > 1`. -/
def c3xStart : Socket := { angle := 0, node_disc_radius := 2 }

/-- End socket at arc parameter 1 for the overshoot scenario. -/
def c3xEnd : Socket := { angle := 1, node_disc_radius := 0 }

/-- An edge whose start disc radius (2) exceeds the arc length (1) between its
sockets; `unit_length = 1/2` gives a point count of 2. -/
def c3xEdge : EdgeGeom :=
  { start_socket := some c3xStart, end_socket := some c3xEnd, radius := 1,
    unit_length := 1 / 2, pos_array := [], vertices := [], buffer := [],
    xyz := (0, 0, 0), collision_object_id := none, next_collision_id := 0,
    color := none }

/-- An edge with no start socket but non-trivial geometry state, for the no-op
claim. -/
def c6Edge : EdgeGeom :=
  { start_socket := none, end_socket := some c1End, radius := 1,
    unit_length := 1, pos_array := [(1, 1, 1)], vertices := [1, 1, 1],
    buffer := [1, 1, 1], xyz := (0, 0, 0), collision_object_id := some 3,
    next_collision_id := 4, color := none }

/-- A start socket at arc parameter 1 for the coincident-sockets scenario. -/
def c10Start : Socket := { angle := 1, node_disc_radius := 1 / 2 }

/-- An end socket at the same arc parameter 1: arc distance zero. -/
def c10End : Socket := { angle := 1, node_disc_radius := 0 }

/-- An edge whose two sockets coincide on the sphere (arc distance 0). -/
def c10Edge : EdgeGeom :=
  { start_socket := some c10Start, end_socket := some c10End, radius := 2,
    unit_length := 1 / 3, pos_array := [], vertices := [], buffer := [],
    xyz := (0, 0, 0), collision_object_id := none, next_collision_id := 0,
    color := none }

/-- An edge with an empty vertex buffer (nothing computed yet). -/
def c2EdgeEmpty : EdgeGeom :=
  { start_socket := none, end_socket := none, radius := 1,
    unit_length := 1, pos_array := [], vertices := [], buffer := [],
    xyz := (0, 0, 0), collision_object_id := none, next_collision_id := 0,
    color := none }

/-- Four uploaded polyline points. -/
def c2Points : List V3 := [(1, 0, 0), (2, 0, 0), (3, 0, 0), (4, 0, 0)]

/-- An edge with 4 uploaded points (12 buffer floats) and a set color. -/
def c2EdgeFull : EdgeGeom :=
  { start_socket := none, end_socket := none, radius := 1,
    unit_length := 1, pos_array := c2Points, vertices := update_buffers c2Points,
    buffer := update_buffers c2Points, xyz := (0, 0, 0),
    collision_object_id := some 1, next_collision_id := 2,
    color := some (1, 0, 0, 1) }

/-- A world of empty back-reference lists, for the reassignment chain. -/
def c4World : World := { socket_edges := fun _ => [], items := [12], collision := [] }

/-- A fresh edge (id 12) not yet attached to any socket. -/
def c4Edge : EdgeRef :=
  { id := 12, start_socket := none, end_socket := none, collision_object_id := none }

/-- A world in which edge 7 is attached to every socket, registered as an item and
as a collision object. -/
def c5World : World :=
  { socket_edges := fun _ => [7], items := [7, 9], collision := [7] }

/-- Edge 7, attached to sockets 1 and 2, with the truthy collision handle 5. -/
def c5Edge : EdgeRef :=
  { id := 7, start_socket := some 1, end_socket := some 2,
    collision_object_id := some 5 }

/-- Same registrations as `c5World`, for the handle-0 scenario. -/
def c5xWorld : World :=
  { socket_edges := fun _ => [7], items := [7, 9], collision := [7] }

/-- Edge 7 with the registered but falsy collision handle 0. -/
def c5xEdge : EdgeRef :=
  { id := 7, start_socket := some 1, end_socket := some 2,
    collision_object_id := some 0 }

/-- A world registering edge 3, for the removal-with-missing-socket scenario. -/
def c9World : World :=
  { socket_edges := fun _ => [3], items := [3], collision := [3] }

/-- Edge 3 with its end socket missing (a valid transient state per the spec). -/
def c9Edge : EdgeRef :=
  { id := 3, start_socket := some 1, end_socket := none,
    collision_object_id := some 4 }

/-- A camera looking at the origin with one queued (position, target) pair. -/
def c7Cam : CamState :=
  { xyz := (0, 0, 3), target := (0, 0, 0), movement_stack := [(5, 0, 3)],
    target_stack := [(5, 0, 0)], view_loc := none }

end SphereBase

/-! ## Helper lemmas -/

namespace SphereBase

lemma slerp_mem_open_segment (a b t : ℚ) (hab : a ≠ b) (h0 : 0 < t) (h1 : t < 1) :
    strictlyBetween a (slerp a b t) b := by
  have h1s : 0 < 1 - t := by linarith
  rcases lt_or_gt_of_ne hab with h | h
  · refine Or.inl ⟨?_, ?_⟩ <;> simp only [slerp] <;>
      nlinarith [mul_pos h0 (sub_pos.mpr h), mul_pos h1s (sub_pos.mpr h)]
  · refine Or.inr ⟨?_, ?_⟩ <;> simp only [slerp] <;>
      nlinarith [mul_pos h0 (sub_pos.mpr h), mul_pos h1s (sub_pos.mpr h)]

lemma slerp_ne_left (a b t : ℚ) (hab : a ≠ b) (h0 : t ≠ 0) :
    slerp a b t ≠ a := by
  intro h
  rw [slerp] at h
  have : t * (b - a) = 0 := by linarith
  rcases mul_eq_zero.mp this with h | h
  · exact h0 h
  · exact hab (by linarith)

lemma not_mem_filter_ne_self (l : List ℕ) (a : ℕ) :
    a ∉ l.filter (fun x => x != a) := by
  simp [List.mem_filter]

/-! ## Claim theorems -/

/-- Claim C1, counterexample.  In the spec's end-to-end scenario (sphere radius 1,
`node_disc_radius = 1/20`, antipodal-ish sockets at arc parameters 0 and 3,
`unit_length = 3/4` so that `n = 4`), `update_position` does produce exactly 4
points, but the last point is `(181/80, 0, 0)`, while the end socket sits at
`(3, 0, 0)`: the gap is `59/80` of arc length — far beyond floating tolerance,
and exact in this rational model.  The loop `for i in range(n)` with step `1/n`
stops at parameter `(n-1)/n = 3/4`, so the polyline never reaches the end
socket. -/
theorem c1_counterexample :
    (update_position c1Edge).map (fun e => (e.pos_array.length, e.pos_array.getLast?)) =
      some (4, some (181 / 80, 0, 0)) ∧
    Socket.xyz c1End c1Edge.radius = (3, 0, 0) ∧
    (3 : ℚ) - 181 / 80 = 59 / 80 := by
  refine ⟨?_, by norm_num [Socket.xyz, c1End, c1Edge, get_position], by norm_num⟩
  simp [update_position, c1Edge, get_number_of_points, Socket.xyz, get_position,
    c1Start, c1End, update_line_points_position, get_edge_start_end,
    get_distance_on_sphere, slerp, List.range_succ]
  norm_num

/-- Claim C1 (amended).  In the end-to-end scenario (radius 1,
`node_disc_radius = 1/20`, sockets at arc parameters 0 and 3, `unit_length = 3/4`
so that `n = 4`), `update_position` produces a `pos_array` of exactly 4
interpolated points; the first point is the SLERP-clipped start
`slerp(start, end, t)` with `t = node_disc_radius / arc_length = 1/60`, clipped
away from the start socket's center; and the last point equals
`slerp(clipped_start, end, (n-1)/n)` — one interpolation step short of the end
socket's position, which it does not reach. -/
theorem c1_scenario_pos_array :
    (update_position c1Edge).map (fun e => e.pos_array) =
      some [get_position 1 (slerp 0 3 (1 / 60)), get_position 1 (slerp (1 / 20) 3 (1 / 4)),
            get_position 1 (slerp (1 / 20) 3 (1 / 2)), get_position 1 (slerp (1 / 20) 3 (3 / 4))] ∧
    get_position 1 (slerp 0 3 (1 / 60)) ≠ Socket.xyz c1Start c1Edge.radius ∧
    get_position 1 (slerp (1 / 20) 3 (3 / 4)) ≠ Socket.xyz c1End c1Edge.radius := by
  refine ⟨?_, by norm_num [Socket.xyz, c1Start, c1Edge, get_position, slerp],
    by norm_num [Socket.xyz, c1End, c1Edge, get_position, slerp]⟩
  simp [update_position, c1Edge, get_number_of_points, Socket.xyz, get_position,
    c1Start, c1End, update_line_points_position, get_edge_start_end,
    get_distance_on_sphere, slerp, List.range_succ]
  norm_num

/-- Claim C2, counterexample.  With an empty vertex buffer, `draw` does not skip
drawing entirely: the two fat-line shader passes are issued before the zero-vertex
check, so two draw calls happen anyway.  And with 4 uploaded points, the raw buffer
draw covers a hard-coded 2 vertices (`glDrawArrays(GL_LINES, 0, 2)`), not the
uploaded point count 4. -/
theorem c2_counterexample :
    c2EdgeEmpty.vertices.length = 0 ∧ (draw c2EdgeEmpty).2.length = 2 ∧
    c2EdgeFull.pos_array.length = 4 ∧
    DrawEvent.drawArrays 0 2 ∈ (draw c2EdgeFull).2 ∧
    DrawEvent.drawArrays 0 4 ∉ (draw c2EdgeFull).2 := by
  refine ⟨rfl, by simp [draw, c2EdgeEmpty], by simp [c2EdgeFull, c2Points], ?_, ?_⟩ <;>
    simp [draw, c2EdgeFull, c2Points, update_buffers, normalizeColor]

/-- Claim C2 (amended).  For every edge, `draw` always issues the two fat-line
shader passes over the point sequence (widths 1.5 and 4, the normalized color,
solid), even when the vertex count is zero; the raw buffer draw alone is skipped
for a zero vertex count, and otherwise covers a constant 2 vertices rather than
the uploaded point count. -/
theorem c2_draw_events (e : EdgeGeom) :
    (e.vertices.length = 0 →
      (draw e).2 =
        [DrawEvent.draw_edge e.pos_array (3 / 2) (normalizeColor e.color) false,
         DrawEvent.draw_edge e.pos_array 4 (normalizeColor e.color) false]) ∧
    (e.vertices.length ≠ 0 →
      (draw e).2 =
        [DrawEvent.draw_edge e.pos_array (3 / 2) (normalizeColor e.color) false,
         DrawEvent.draw_edge e.pos_array 4 (normalizeColor e.color) false,
         DrawEvent.drawArrays 0 2]) := by
  constructor <;> intro h <;> simp [draw, h]

/-- Claim C2, witness: the amended draw contract evaluated on an edge with an empty
buffer and on an edge with 4 uploaded points. -/
theorem c2_draw_events_witness :
    (draw c2EdgeEmpty).2 =
      [DrawEvent.draw_edge c2EdgeEmpty.pos_array (3 / 2)
        (normalizeColor c2EdgeEmpty.color) false,
       DrawEvent.draw_edge c2EdgeEmpty.pos_array 4
        (normalizeColor c2EdgeEmpty.color) false] ∧
    (draw c2EdgeFull).2 =
      [DrawEvent.draw_edge c2EdgeFull.pos_array (3 / 2)
        (normalizeColor c2EdgeFull.color) false,
       DrawEvent.draw_edge c2EdgeFull.pos_array 4
        (normalizeColor c2EdgeFull.color) false,
       DrawEvent.drawArrays 0 2] :=
  ⟨(c2_draw_events c2EdgeEmpty).1 rfl,
   (c2_draw_events c2EdgeFull).2 (by simp [c2EdgeFull, c2Points, update_buffers])⟩

/-- Claim C3, counterexample.  The claim's hypotheses hold (both sockets set,
distinct positions, `node_disc_radius > 0`), and the adjusted start is indeed
`slerp(start, end, node_disc_radius / arc_length)`; but because the fraction is
not clamped, with disc radius 2 against arc length 1 the adjusted start (arc
parameter 2) overshoots the end socket (arc parameter 1): the polyline's first
point `(2, 0, 0)` does not lie strictly between the start and end socket
orientations. -/
theorem c3_counterexample :
    c3xEdge.start_socket = some c3xStart ∧ c3xEdge.end_socket = some c3xEnd ∧
    c3xStart.angle ≠ c3xEnd.angle ∧ 0 < c3xStart.node_disc_radius ∧
    get_edge_start_end c3xEdge =
      some (slerp c3xStart.angle c3xEnd.angle
        (c3xStart.node_disc_radius /
          get_distance_on_sphere c3xEnd c3xStart c3xEdge.radius), c3xEnd.angle) ∧
    ¬ strictlyBetween c3xStart.angle
      (slerp c3xStart.angle c3xEnd.angle
        (c3xStart.node_disc_radius /
          get_distance_on_sphere c3xEnd c3xStart c3xEdge.radius)) c3xEnd.angle ∧
    (update_position c3xEdge).map (fun e2 => e2.pos_array.head?) =
      some (some (2, 0, 0)) := by
  refine ⟨rfl, rfl, by norm_num [c3xStart, c3xEnd], by norm_num [c3xStart], ?_, ?_, ?_⟩
  · rw [get_edge_start_end]
    norm_num [c3xStart, c3xEnd, c3xEdge, get_distance_on_sphere]
  · norm_num [c3xStart, c3xEnd, c3xEdge, get_distance_on_sphere, slerp, strictlyBetween]
  · simp [update_position, c3xEdge, get_number_of_points, Socket.xyz, get_position,
      c3xStart, c3xEnd, update_line_points_position, get_edge_start_end,
      get_distance_on_sphere, slerp, List.range_succ]

/-- Claim C3 (amended).  For every edge with both sockets set, distinct socket
orientations, and `0 < node_disc_radius < arc_length` (the added upper bound is
forced by the unclamped division, see the counterexample), `get_edge_start_end`
returns exactly `(slerp(start, end, node_disc_radius / arc_length), end)`; the
adjusted start lies strictly between the two socket orientations and differs from
the start socket's orientation; and for any positive vertex count the polyline's
first point is the adjusted start orientation projected to the sphere. -/
theorem c3_clearance_clips_start (e : EdgeGeom) (ss es : Socket)
    (hs : e.start_socket = some ss) (he : e.end_socket = some es)
    (hne : ss.angle ≠ es.angle) (hr : 0 < ss.node_disc_radius)
    (hlt : ss.node_disc_radius < get_distance_on_sphere es ss e.radius) :
    get_edge_start_end e =
      some (slerp ss.angle es.angle
        (ss.node_disc_radius / get_distance_on_sphere es ss e.radius), es.angle) ∧
    strictlyBetween ss.angle
      (slerp ss.angle es.angle
        (ss.node_disc_radius / get_distance_on_sphere es ss e.radius)) es.angle ∧
    slerp ss.angle es.angle
      (ss.node_disc_radius / get_distance_on_sphere es ss e.radius) ≠ ss.angle ∧
    ∀ n step, 0 < n →
      (update_line_points_position e n step).map (fun e2 => e2.pos_array.head?) =
        some (some (get_position e.radius
          (slerp ss.angle es.angle
            (ss.node_disc_radius / get_distance_on_sphere es ss e.radius)))) := by
  have hd : 0 < get_distance_on_sphere es ss e.radius := hr.trans hlt
  have hln : get_distance_on_sphere es ss e.radius ≠ 0 := ne_of_gt hd
  have ht0 : 0 < ss.node_disc_radius / get_distance_on_sphere es ss e.radius :=
    div_pos hr hd
  have ht1 : ss.node_disc_radius / get_distance_on_sphere es ss e.radius < 1 :=
    (div_lt_one hd).mpr hlt
  have hge : get_edge_start_end e =
      some (slerp ss.angle es.angle
        (ss.node_disc_radius / get_distance_on_sphere es ss e.radius), es.angle) := by
    rw [get_edge_start_end, hs, he]
    simp [hln]
  refine ⟨hge, slerp_mem_open_segment _ _ _ hne ht0 ht1,
    slerp_ne_left _ _ _ hne (ne_of_gt ht0), ?_⟩
  intro n step hn
  rw [update_line_points_position, hge, hs]
  rcases n with _ | m
  · exact absurd hn (by simp)
  · simp [List.range_succ_eq_map, slerp]

/-- Claim C3, witness: with disc radius 1/2 against arc length 2 the adjusted start
lies strictly between the socket orientations. -/
theorem c3_clearance_clips_start_witness :
    strictlyBetween c3Start.angle
      (slerp c3Start.angle c3End.angle
        (c3Start.node_disc_radius / get_distance_on_sphere c3End c3Start c3Edge.radius))
      c3End.angle :=
  (c3_clearance_clips_start c3Edge c3Start c3End rfl rfl (by norm_num [c3Start, c3End])
    (by norm_num [c3Start])
    (by norm_num [c3Start, c3End, c3Edge, get_distance_on_sphere])).2.1

/-- Claim C4.  Assigning a new socket to `start_socket` (or `end_socket`) first
removes the edge from the previously assigned socket's back-reference list and then
appends it to the new socket's list; consequently, reassigning `start_socket`
A then B then C (starting from a fresh edge no socket references) leaves only C
holding a back-reference to the edge, with every other socket — in particular A
and B — holding none. -/
theorem c4_socket_reassignment :
    (∀ (w : World) (e : EdgeRef) (old s : ℕ), e.start_socket = some old → old ≠ s →
      (set_start_socket w e (some s)).1.socket_edges old =
          (w.socket_edges old).filter (fun x => x != e.id) ∧
      (set_start_socket w e (some s)).1.socket_edges s =
          w.socket_edges s ++ [e.id] ∧
      (set_start_socket w e (some s)).2.start_socket = some s) ∧
    (∀ (w : World) (e : EdgeRef) (old s : ℕ), e.end_socket = some old → old ≠ s →
      (set_end_socket w e (some s)).1.socket_edges old =
          (w.socket_edges old).filter (fun x => x != e.id) ∧
      (set_end_socket w e (some s)).1.socket_edges s =
          w.socket_edges s ++ [e.id] ∧
      (set_end_socket w e (some s)).2.end_socket = some s) ∧
    (∀ (w : World) (e : EdgeRef) (a b c : ℕ), e.start_socket = none →
      (∀ sid, e.id ∉ w.socket_edges sid) →
      let p1 := set_start_socket w e (some a)
      let p2 := set_start_socket p1.1 p1.2 (some b)
      let p3 := set_start_socket p2.1 p2.2 (some c)
      e.id ∈ p3.1.socket_edges c ∧
      ∀ sid, sid ≠ c → e.id ∉ p3.1.socket_edges sid) := by
  refine ⟨?_, ?_, ?_⟩
  · intro w e old s h hne
    simp [set_start_socket, remove_edge, add_edge, h, hne, Ne.symm hne]
  · intro w e old s h hne
    simp [set_end_socket, remove_edge, add_edge, h, hne, Ne.symm hne]
  · intro w e a b c h h0
    simp only [set_start_socket, remove_edge, add_edge, h]
    constructor
    · simp
    · intro sid hsid
      simp only [hsid, if_false]
      by_cases hb : sid = b
      · subst hb
        simp [not_mem_filter_ne_self]
      · simp only [hb, if_false]
        by_cases ha : sid = a
        · subst ha
          simp [not_mem_filter_ne_self]
        · simp [ha, hb, h0 sid]

/-- Claim C4, witness: reassigning edge 12 through sockets 1, 2, 3 leaves the
back-reference only in socket 3. -/
theorem c4_socket_reassignment_witness :
    c4Edge.id ∈ (set_start_socket
        (set_start_socket (set_start_socket c4World c4Edge (some 1)).1
          (set_start_socket c4World c4Edge (some 1)).2 (some 2)).1
        (set_start_socket (set_start_socket c4World c4Edge (some 1)).1
          (set_start_socket c4World c4Edge (some 1)).2 (some 2)).2
        (some 3)).1.socket_edges 3 ∧
    c4Edge.id ∉ (set_start_socket
        (set_start_socket (set_start_socket c4World c4Edge (some 1)).1
          (set_start_socket c4World c4Edge (some 1)).2 (some 2)).1
        (set_start_socket (set_start_socket c4World c4Edge (some 1)).1
          (set_start_socket c4World c4Edge (some 1)).2 (some 2)).2
        (some 3)).1.socket_edges 1 ∧
    c4Edge.id ∉ (set_start_socket
        (set_start_socket (set_start_socket c4World c4Edge (some 1)).1
          (set_start_socket c4World c4Edge (some 1)).2 (some 2)).1
        (set_start_socket (set_start_socket c4World c4Edge (some 1)).1
          (set_start_socket c4World c4Edge (some 1)).2 (some 2)).2
        (some 3)).1.socket_edges 2 := by
  have h := c4_socket_reassignment.2.2 c4World c4Edge 1 2 3 rfl
    (by intro sid; simp [c4World])
  exact ⟨h.1, h.2 1 (by decide), h.2 2 (by decide)⟩

/-- Claim C5, counterexample.  Edge 7 has a registered collision handle whose value
is 0; `remove` completes, detaches the sockets and the item, but the deletion guard
`if self.collision_object_id:` treats the falsy handle 0 as absent, so the
collision handle stays registered — a dangling handle. -/
theorem c5_counterexample :
    c5xEdge.collision_object_id = some 0 ∧ c5xEdge.id ∈ c5xWorld.collision ∧
    danglingAfterRemove c5xWorld c5xEdge := by
  refine ⟨rfl, by simp [c5xWorld, c5xEdge], ?_⟩
  rw [danglingAfterRemove, remove]
  simp [c5xEdge, c5xWorld, pyTruthy, remove_edge]

/-- Claim C5 (amended).  For every edge with both endpoint sockets set and a
collision handle whose value is truthy (non-zero — the amendment forced by the
Python truthiness guard, see the counterexample), `remove` completes and leaves
both former endpoint sockets with no reference to the edge, removes the edge from
the sphere's item collection, and releases the collision handle. -/
theorem c5_remove_cleans_up (w : World) (e : EdgeRef) (ss es : ℕ) (cid : ℤ)
    (hs : e.start_socket = some ss) (he : e.end_socket = some es)
    (hc : e.collision_object_id = some cid) (hcz : cid ≠ 0) :
    removedCleanly w e ss es := by
  rw [removedCleanly, remove, hs, he]
  have htr : pyTruthy e.collision_object_id = true := by
    rw [hc, pyTruthy]
    simpa using hcz
  simp only [htr, if_true]
  refine ⟨?_, ?_, not_mem_filter_ne_self _ _, not_mem_filter_ne_self _ _⟩
  · by_cases hse : ss = es <;>
      simp [remove_edge, hse, not_mem_filter_ne_self]
  · simp [remove_edge, not_mem_filter_ne_self]

/-- Claim C5, witness: removing edge 7 (handle 5) leaves sockets 1 and 2, the item
collection and the collision registry with no trace of it. -/
theorem c5_remove_cleans_up_witness : removedCleanly c5World c5Edge 1 2 :=
  c5_remove_cleans_up c5World c5Edge 1 2 5 rfl rfl rfl (by decide)

/-- Claim C6.  For every edge with zero or one endpoint socket set,
`update_position` is a silent no-op: it returns the state unchanged (so
`pos_array`, the vertex buffers and the collision handle are untouched) and does
not fail. -/
theorem c6_update_position_noop (e : EdgeGeom)
    (h : e.start_socket = none ∨ e.end_socket = none) :
    update_position e = some e := by
  cases h1 : e.start_socket <;> cases h2 : e.end_socket <;>
    simp_all [update_position]

/-- Claim C6, witness: an edge with no start socket but non-trivial buffers and a
collision handle is left exactly as it was. -/
theorem c6_update_position_noop_witness : update_position c6Edge = some c6Edge :=
  c6_update_position_noop c6Edge (Or.inl rfl)

/-- Claim C7.  After queuing exactly one (position, target) pair, one `Camera.draw`
applies exactly that pair, empties both queues and publishes the view for the new
pair; a second `Camera.draw` on the now-empty queue leaves position and target
unchanged (and, in general, `Camera.draw` with an empty movement queue only
republishes the view of the current position and target). -/
theorem c7_camera_draw (c : CamState) (p t : V3)
    (hm : c.movement_stack = [p]) (ht : c.target_stack = [t]) :
    (Camera.draw c).map
        (fun c1 => (c1.xyz, c1.target, c1.movement_stack, c1.target_stack, c1.view_loc)) =
      some (p, t, [], [], some (p, t)) ∧
    ((Camera.draw c).bind Camera.draw).map
        (fun c2 => (c2.xyz, c2.target, c2.movement_stack, c2.target_stack, c2.view_loc)) =
      some (p, t, [], [], some (p, t)) ∧
    (∀ c3 : CamState, c3.movement_stack = [] →
      (Camera.draw c3).map (fun c4 => (c4.xyz, c4.target)) =
        some (c3.xyz, c3.target)) := by
  obtain ⟨xyz, target, ms, ts, vl⟩ := c
  simp only at hm ht
  subst hm ht
  refine ⟨rfl, rfl, ?_⟩
  intro c3 h3
  obtain ⟨xyz3, target3, ms3, ts3, vl3⟩ := c3
  simp only at h3
  subst h3
  rfl

/-- Claim C7, witness: a camera with the queued pair ((5,0,3), (5,0,0)) jumps there
on the first draw and stays there on the second. -/
theorem c7_camera_draw_witness :
    (Camera.draw c7Cam).map
        (fun c1 => (c1.xyz, c1.target, c1.movement_stack, c1.target_stack, c1.view_loc)) =
      some ((5, 0, 3), (5, 0, 0), [], [], some ((5, 0, 3), (5, 0, 0))) ∧
    ((Camera.draw c7Cam).bind Camera.draw).map
        (fun c2 => (c2.xyz, c2.target, c2.movement_stack, c2.target_stack, c2.view_loc)) =
      some ((5, 0, 3), (5, 0, 0), [], [], some ((5, 0, 3), (5, 0, 0))) :=
  ⟨(c7_camera_draw c7Cam (5, 0, 3) (5, 0, 0) rfl rfl).1,
   (c7_camera_draw c7Cam (5, 0, 3) (5, 0, 0) rfl rfl).2.1⟩

/-- Claim C8.  `is_dragging` moves NOT_DRAGGING to DRAGGING on a drag-start signal
(no history entry), moves DRAGGING to NOT_DRAGGING on a drag-end signal while
appending exactly one undo-history entry labelled "edge moved", and treats a
signal equal to the current state as a no-op that returns the current state and
stores nothing. -/
theorem c8_is_dragging (history : List String) (b : Bool) :
    is_dragging false history true = (true, true, history) ∧
    is_dragging true history false = (false, false, history ++ ["edge moved"]) ∧
    is_dragging b history b = (b, b, history) := by
  refine ⟨rfl, rfl, ?_⟩
  cases b <;> rfl

/-- Claim C9.  For every edge with at least one endpoint socket missing, `remove`
raises an exception (attribute access on `None`) before the edge is removed from
the sphere's item collection: the state carried by the exception still has the
item collection of the initial state. -/
theorem c9_remove_raises (w : World) (e : EdgeRef)
    (h : e.start_socket = none ∨ e.end_socket = none) :
    raisedBeforeItemRemoval w e := by
  rw [raisedBeforeItemRemoval, remove]
  cases h1 : e.start_socket with
  | none => simp
  | some ss =>
    cases h2 : e.end_socket with
    | none => simp [remove_edge]
    | some es => simp_all

/-- Claim C9, witness: removing edge 3, whose end socket is missing, raises with
the item collection untouched. -/
theorem c9_remove_raises_witness : raisedBeforeItemRemoval c9World c9Edge :=
  c9_remove_raises c9World c9Edge (Or.inr rfl)

/-- Claim C10, counterexample.  For two sockets with zero arc distance,
`update_position` does not raise a division-by-zero error: the point count,
proportional to the arc distance, is 0, so the `n > 0` branch — and with it the
unguarded division inside `get_edge_start_end` — is never reached, and
`update_position` completes as a no-op. -/
theorem c10_counterexample :
    c10Edge.start_socket = some c10Start ∧ c10Edge.end_socket = some c10End ∧
    get_distance_on_sphere c10End c10Start c10Edge.radius = 0 ∧
    update_position c10Edge = some c10Edge := by
  refine ⟨rfl, rfl, by norm_num [c10Start, c10End, c10Edge, get_distance_on_sphere], ?_⟩
  simp [update_position, c10Edge, get_number_of_points, Socket.xyz, get_position,
    c10Start, c10End]

/-- Claim C10 (amended).  `get_edge_start_end` divides `node_disc_radius` by the
arc length without guard or clamp: called directly on sockets with zero arc
distance it raises a division-by-zero error (modelled `none`), and when
`node_disc_radius` exceeds the arc length the clearance fraction `t` exceeds 1.
However, `update_position` itself does not raise for coincident sockets: the point
count is 0 there, the `n > 0` branch is skipped, and the call silently
no-ops. -/
theorem c10_unguarded_clearance_division :
    (∀ (e : EdgeGeom) (ss es : Socket), e.start_socket = some ss →
      e.end_socket = some es → ss.angle = es.angle →
      get_edge_start_end e = none ∧ update_position e = some e) ∧
    (∀ (e : EdgeGeom) (ss es : Socket), e.start_socket = some ss →
      e.end_socket = some es →
      0 < get_distance_on_sphere es ss e.radius →
      get_distance_on_sphere es ss e.radius < ss.node_disc_radius →
      1 < ss.node_disc_radius / get_distance_on_sphere es ss e.radius ∧
      get_edge_start_end e =
        some (slerp ss.angle es.angle
          (ss.node_disc_radius / get_distance_on_sphere es ss e.radius),
          es.angle)) := by
  constructor
  · intro e ss es hs he ha
    have hd : get_distance_on_sphere es ss e.radius = 0 := by
      simp [get_distance_on_sphere, ha]
    constructor
    · rw [get_edge_start_end, hs, he]
      simp [hd]
    · rw [update_position, hs, he]
      have hn : get_number_of_points (Socket.xyz ss e.radius) (Socket.xyz es e.radius)
          e.radius e.unit_length = 0 := by
        simp [get_number_of_points, Socket.xyz, get_position, ha]
      simp [hn]
  · intro e ss es hs he hd hlt
    refine ⟨(one_lt_div hd).mpr hlt, ?_⟩
    rw [get_edge_start_end, hs, he]
    simp [ne_of_gt hd]

/-- Claim C10, witness: coincident sockets make `get_edge_start_end` raise and
`update_position` no-op, and disc radius 2 over arc length 1 gives a clearance
fraction above 1. -/
theorem c10_unguarded_clearance_division_witness :
    (get_edge_start_end c10Edge = none ∧ update_position c10Edge = some c10Edge) ∧
    1 < c3xStart.node_disc_radius /
        get_distance_on_sphere c3xEnd c3xStart c3xEdge.radius :=
  ⟨c10_unguarded_clearance_division.1 c10Edge c10Start c10End rfl rfl rfl,
   (c10_unguarded_clearance_division.2 c3xEdge c3xStart c3xEnd rfl rfl
      (by norm_num [c3xStart, c3xEnd, c3xEdge, get_distance_on_sphere])
      (by norm_num [c3xStart, c3xEnd, c3xEdge, get_distance_on_sphere])).1⟩

end SphereBase
